import Mathlib

/-!
Verification of `src/nova/virt/libvirt/firewall.py` (nova network
security-policy enforcement): a shallow embedding of the data model, the
iptables rule compiler (`IptablesFirewallDriver.instance_rules`), the
chain-tree driver state operations, and the nwfilter XML builder
(`NWFilterFirewall`), with theorems settling the frozen claims.
-/

namespace NovaFirewall

/-- A network record as read from the network-info read path: the fields of
`network` used by `firewall.py` (`gateway`, `cidr`, `gateway_v6`, `cidr_v6`).
An absent `gateway_v6` is modelled as the empty string (Python falsy). -/
structure Network where
  gateway : String
  cidr : String
  gateway_v6 : String
  cidr_v6 : String
deriving DecidableEq

/-- One assigned address entry (`ip['ip']`). -/
structure IpEntry where
  ip : String
deriving DecidableEq

/-- A NIC mapping: MAC address and assigned v4/v6 addresses. -/
structure Mapping where
  mac : String
  ips : List IpEntry
  ip6s : List IpEntry
deriving DecidableEq

/-- `network_info` as consumed by the driver: a list of (network, mapping)
pairs. -/
abbrev NetworkInfo := List (Network × Mapping)

/-- A compute instance record: the fields of `instance` read by
`firewall.py` (`id`, `name`, `image_ref`). -/
structure Instance where
  id : Nat
  name : String
  image_ref : String
deriving DecidableEq

/-- A security-group rule record (`protocol`, `cidr`, `from_port`,
`to_port`); an absent CIDR is `none`. -/
structure SecurityGroupRule where
  protocol : String
  cidr : Option String
  from_port : Int
  to_port : Int
deriving DecidableEq

/-- A security group with its resolved rules (the db read path
`security_group_rule_get_by_security_group` resolved ahead of time). -/
structure SecurityGroup where
  id : Nat
  rules : List SecurityGroupRule
deriving DecidableEq

/-- The configuration flags read by `firewall.py`: `use_ipv6`,
`allow_project_net_traffic`, `vpn_image_id`. -/
structure Flags where
  use_ipv6 : Bool
  allow_project_net_traffic : Bool
  vpn_image_id : String
deriving DecidableEq

/-- Modelled from the spec: the read-only helpers of
`nova.virt.libvirt.netutils` (not under src/) that `firewall.py` calls:
`get_ip_version` derives the IP version from a CIDR, `get_net_and_prefixlen`
and `get_net_and_mask` split a CIDR. The theorems below are parametric in
this structure. -/
structure NetUtils where
  get_ip_version : String → Nat
  get_net_and_prefixlen : String → String × String
  get_net_and_mask : String → String × String

/-- Modelled from the spec: a sample instantiation of the netutils helpers,
used only to evaluate the embedding at concrete inputs (version from the
presence of a colon; net/mask split at the slash). -/
def sampleNetutils : NetUtils where
  get_ip_version := fun cidr => if cidr.toList.contains ':' then 6 else 4
  get_net_and_prefixlen := fun cidr =>
    (⟨cidr.toList.takeWhile (fun c => c != '/')⟩,
      ⟨(cidr.toList.dropWhile (fun c => c != '/')).drop 1⟩)
  get_net_and_mask := fun cidr =>
    (⟨cidr.toList.takeWhile (fun c => c != '/')⟩,
      if ((cidr.toList.dropWhile (fun c => c != '/')).drop 1) = ['0'] then "0.0.0.0"
      else "255.255.255.255")

/-! ## Chain-table capability (Backend A substrate)

Modelled from the spec (§6): the consumed chain-table capability
`add_chain(name)`, `remove_chain(name)`, `add_rule(chain, ruleSpec)`,
`apply()`, with separate v4/v6 tables (`nova.network.linux_net` is not
under src/). A table holds the staged chains and rules in order; `apply`
is recorded as a commit count. -/

/-- One iptables table: staged chain names and staged (chain, rule) pairs. -/
structure IptablesTable where
  chains : List String
  rules : List (String × String)
deriving DecidableEq

/-- Stage a new chain. -/
def IptablesTable.add_chain (t : IptablesTable) (chain : String) : IptablesTable :=
  { t with chains := t.chains ++ [chain] }

/-- Stage a rule on a chain. -/
def IptablesTable.add_rule (t : IptablesTable) (chain rule : String) : IptablesTable :=
  { t with rules := t.rules ++ [(chain, rule)] }

/-- Remove a chain and the rules staged on it. -/
def IptablesTable.remove_chain (t : IptablesTable) (chain : String) : IptablesTable :=
  { chains := t.chains.filter (fun c => c != chain),
    rules := t.rules.filter (fun pr => pr.1 != chain) }

/-- The iptables manager: a v4 filter table, a v6 filter table and the
number of commits (`apply()` calls) issued so far. -/
structure IptablesManager where
  ipv4_filter : IptablesTable
  ipv6_filter : IptablesTable
  commits : Nat
deriving DecidableEq

/-- `iptables.apply()`: commit all staged changes (recorded as a count). -/
def IptablesManager.apply (m : IptablesManager) : IptablesManager :=
  { m with commits := m.commits + 1 }

/-- A fresh manager with empty tables. -/
def empty_manager : IptablesManager :=
  { ipv4_filter := ⟨[], []⟩, ipv6_filter := ⟨[], []⟩, commits := 0 }

/-- `IptablesFirewallDriver.__init__` (firewall.py lines 436-439): stage the
shared `sg-fallback` chain with its single `-j DROP` rule in both the v4 and
the v6 filter table. -/
def IptablesFirewallDriver.init_chains (m : IptablesManager) : IptablesManager :=
  { m with
    ipv4_filter := (m.ipv4_filter.add_chain "sg-fallback").add_rule "sg-fallback" "-j DROP",
    ipv6_filter := (m.ipv6_filter.add_chain "sg-fallback").add_rule "sg-fallback" "-j DROP" }

/-! ## Rule compiler (`IptablesFirewallDriver.instance_rules`, lines 508-615) -/

/-- The icmp type/code argument (lines 590-599): `None` when the type is
`-1`; otherwise the type, with `/code` appended when the code is not `-1`. -/
def iptables_icmp_type_arg (icmp_type icmp_code : Int) : Option String :=
  if icmp_type = -1 then none
  else some (toString icmp_type ++ (if icmp_code = -1 then "" else "/" ++ toString icmp_code))

/-- The argument list compiled for one security-group rule with CIDR `cidr`
(lines 571-609): protocol and source, then the protocol-specific port or
icmp-type arguments, then the accept action. -/
def sg_rule_args (nu : NetUtils) (rule : SecurityGroupRule) (cidr : String) : List String :=
  let version := nu.get_ip_version cidr
  let protocol := if version == 6 && rule.protocol == "icmp" then "icmpv6" else rule.protocol
  let args := ["-p", protocol, "-s", cidr]
  let args :=
    if rule.protocol == "udp" || rule.protocol == "tcp" then
      if rule.from_port = rule.to_port then
        args ++ ["--dport", toString rule.from_port]
      else
        args ++ ["-m", "multiport", "--dports",
          toString rule.from_port ++ ":" ++ toString rule.to_port]
    else if rule.protocol == "icmp" then
      match iptables_icmp_type_arg rule.from_port rule.to_port with
      | none => args
      | some ta =>
        if version == 4 then args ++ ["-m", "icmp", "--icmp-type", ta]
        else if version == 6 then args ++ ["-m", "icmp6", "--icmpv6-type", ta]
        else args
    else args
  args ++ ["-j ACCEPT"]

/-- One step of the security-group loop (lines 563-610), acting on the
(v4, v6) directive-list pair: a rule with no CIDR is skipped; otherwise its
joined directive is appended to the v4 list when the version is 4 and to
the v6 list otherwise. -/
def compile_sg_rule (nu : NetUtils) (acc : List String × List String)
    (rule : SecurityGroupRule) : List String × List String :=
  match rule.cidr with
  | none => acc
  | some cidr =>
    let version := nu.get_ip_version cidr
    let directive := String.intercalate " " (sg_rule_args nu rule cidr)
    if version == 4 then (acc.1 ++ [directive], acc.2) else (acc.1, acc.2 ++ [directive])

/-- The fixed v4 prefix of `instance_rules` (lines 513-534): INVALID drop,
ESTABLISHED/RELATED accept, per-network DHCP-server accepts, and the
project-network accepts when enabled. -/
def base_prefix_v4 (flags : Flags) (network_info : NetworkInfo) : List String :=
  ["-m state --state INVALID -j DROP",
    "-m state --state ESTABLISHED,RELATED -j ACCEPT"]
  ++ network_info.map (fun p => "-s " ++ p.1.gateway ++ " -p udp --sport 67 --dport 68 -j ACCEPT")
  ++ (if flags.allow_project_net_traffic then
        network_info.map (fun p => "-s " ++ p.1.cidr ++ " -j ACCEPT")
      else [])

/-- The fixed v6 prefix of `instance_rules` (lines 517-553): INVALID drop,
ESTABLISHED/RELATED accept, and when IPv6 is enabled the per-gateway
ICMPv6 accepts and the project-network accepts when enabled. -/
def base_prefix_v6 (flags : Flags) (network_info : NetworkInfo) : List String :=
  ["-m state --state INVALID -j DROP",
    "-m state --state ESTABLISHED,RELATED -j ACCEPT"]
  ++ (if flags.use_ipv6 then
        network_info.map (fun p => "-s " ++ p.1.gateway_v6 ++ "/128 -p icmpv6 -j ACCEPT")
        ++ (if flags.allow_project_net_traffic then
              network_info.map (fun p => "-s " ++ p.1.cidr_v6 ++ " -j ACCEPT")
            else [])
      else [])

/-- `IptablesFirewallDriver.instance_rules` (lines 508-615): the fixed
prefixes, then every rule of every attached security group in stored order,
then the jump to the shared fallback chain appended to both lists. The db
read paths are passed as the resolved `security_groups`. -/
def instance_rules (flags : Flags) (nu : NetUtils) (network_info : NetworkInfo)
    (security_groups : List SecurityGroup) : List String × List String :=
  let compiled := security_groups.foldl
    (fun acc g => g.rules.foldl (compile_sg_rule nu) acc)
    (base_prefix_v4 flags network_info, base_prefix_v6 flags network_info)
  (compiled.1 ++ ["-j $sg-fallback"], compiled.2 ++ ["-j $sg-fallback"])

/-! ## Chain-tree driver state (`IptablesFirewallDriver`) -/

/-- `_instance_chain_name` (lines 641-642). -/
def instance_chain_name (inst : Instance) : String :=
  "inst-" ++ toString inst.id

/-- The chain-tree driver's mutable state: the iptables manager and the
tracked-instance map `self.instances` (instance id to instance record). -/
structure FirewallState where
  iptables : IptablesManager
  instances : List (Nat × Instance)
deriving DecidableEq

/-- `remove_filters_for_instance` (lines 501-506): remove the instance
chain from the v4 table always, and from the v6 table when IPv6 is
enabled. -/
def IptablesFirewallDriver.remove_filters_for_instance (flags : Flags)
    (st : FirewallState) (inst : Instance) : FirewallState :=
  let chain_name := instance_chain_name inst
  let m := st.iptables
  let m := { m with ipv4_filter := m.ipv4_filter.remove_chain chain_name }
  let m := if flags.use_ipv6 then
      { m with ipv6_filter := m.ipv6_filter.remove_chain chain_name }
    else m
  { st with iptables := m }

/-- `unfilter_instance` (lines 451-457): pop the instance from the tracked
map; when it was tracked, remove its chains and commit; otherwise only log
(the returned Bool records that the untracked message was logged). -/
def IptablesFirewallDriver.unfilter_instance (flags : Flags)
    (st : FirewallState) (inst : Instance) : FirewallState × Bool :=
  match st.instances.lookup inst.id with
  | some _ =>
    let st1 : FirewallState :=
      { st with instances := st.instances.filter (fun pr => pr.1 != inst.id) }
    let st2 := IptablesFirewallDriver.remove_filters_for_instance flags st1 inst
    ({ st2 with iptables := st2.iptables.apply }, false)
  | none => (st, true)

/-- The network info used for each tracked instance by
`do_refresh_security_group_rules` (lines 628-636), as (instance, info)
pairs. The Python loop keeps a single local `network_info` variable: it is
fetched only when the current value is falsy (`None` or an empty list) and
is then carried over to the following iterations. -/
def do_refresh_pairs (get_network_info : Instance → NetworkInfo) :
    List Instance → Option NetworkInfo → List (Instance × NetworkInfo)
  | [], _ => []
  | inst :: rest, network_info =>
    let cur := match network_info with
      | none => get_network_info inst
      | some l => if l.isEmpty then get_network_info inst else l
    (inst, cur) :: do_refresh_pairs get_network_info rest (some cur)

/-- The events of one `refresh_security_group_rules` call (lines 624-636). -/
inductive RefreshEvent where
  | lock_acquire
  | lock_release
  | remove_filters (instance_id : Nat)
  | add_filters (instance_id : Nat)
  | apply
deriving DecidableEq

/-- The restage events of `do_refresh_security_group_rules` (lines
628-636): for each tracked instance, remove then re-add its filters. -/
def restage_events (tracked : List Nat) : List RefreshEvent :=
  tracked.foldr
    (fun i acc => RefreshEvent.remove_filters i :: RefreshEvent.add_filters i :: acc) []

/-- The event trace of `refresh_security_group_rules` (lines 624-636): the
`utils.synchronized` decorator wraps only `do_refresh_security_group_rules`
(the lock-release happens when that call returns), and `iptables.apply()`
runs afterwards. Lock semantics are modelled from the spec (a named
mutual-exclusion guard; `nova.utils` is not under src/). -/
def refresh_security_group_rules_trace (tracked : List Nat) : List RefreshEvent :=
  ((RefreshEvent.lock_acquire :: restage_events tracked)
    ++ [RefreshEvent.lock_release]) ++ [RefreshEvent.apply]

/-- The claim's reading of the lock scope, following the spec's words: the
commit is covered by the lock, i.e. the `apply` event stands before the
`lock_release` event. -/
def commit_within_lock (tr : List RefreshEvent) : Bool :=
  tr.findIdx (fun e => e == RefreshEvent.apply)
    < tr.findIdx (fun e => e == RefreshEvent.lock_release)

/-! ## Filter-graph backend (`NWFilterFirewall`) -/

/-- The filter-graph backend's state: the named filter objects currently
defined at the hypervisor (name, payload); `define` is create-or-replace. -/
structure NWFilterState where
  filters : List (String × String)
deriving DecidableEq

/-- `NWFilterFirewall.unfilter_instance` (lines 287-289): `pass` — the
state is returned unchanged. -/
def NWFilterFirewall.unfilter_instance (st : NWFilterState) (_inst : Instance) :
    NWFilterState :=
  st

/-- `_instance_filter_name` (lines 408-411). -/
def instance_filter_name (inst : Instance) (nic_id : String) : String :=
  "nova-instance-" ++ inst.name ++ "-" ++ nic_id

/-- `NWFilterFirewall.instance_filter_exists` (lines 413-426): for each NIC
in order, look up the derived filter name; the first failed lookup (a
caught libvirt error) yields `false` together with the logged name; when
every lookup succeeds the result is `true` with nothing logged. -/
def NWFilterFirewall.instance_filter_exists (lookup : String → Bool)
    (inst : Instance) : NetworkInfo → Bool × Option String
  | [] => (true, none)
  | p :: rest =>
    let nic_id := p.2.mac.replace ":" ""
    let fname := instance_filter_name inst nic_id
    if lookup fname then NWFilterFirewall.instance_filter_exists lookup inst rest
    else (false, some fname)

/-- The v6 protocol names (line 374). The Python dict lookup would raise
for a protocol outside tcp/udp/icmp; the total embedding returns the
protocol unchanged there (no claim exercises that path). -/
def v6protocol (p : String) : String :=
  if p == "tcp" then "tcp-ipv6"
  else if p == "udp" then "udp-ipv6"
  else if p == "icmp" then "icmpv6"
  else p

/-- The icmp type fragment of the nwfilter rule XML (lines 394-395):
emitted whenever the type is not `-1`. -/
def nw_icmp_type_part (t : Int) : String :=
  if t = -1 then "" else "type='" ++ toString t ++ "' "

/-- The icmp code fragment of the nwfilter rule XML (lines 396-397):
emitted whenever the code is not `-1`, independently of the type. -/
def nw_icmp_code_part (c : Int) : String :=
  if c = -1 then "" else "code='" ++ toString c ++ "' "

/-- The XML contributed by one security-group rule inside
`security_group_to_nwfilter_xml` (lines 375-400): the rule element is
opened and closed for every rule; the protocol match element is emitted
only when the rule has a CIDR. -/
def nw_rule_xml (flags : Flags) (nu : NetUtils) (rule : SecurityGroupRule) : String :=
  "<rule action='accept' direction='in' priority='300'>"
  ++ (match rule.cidr with
      | none => ""
      | some cidr =>
        let version := nu.get_ip_version cidr
        let head :=
          if flags.use_ipv6 && version == 6 then
            let np := nu.get_net_and_prefixlen cidr
            "<" ++ v6protocol rule.protocol
              ++ " srcipaddr='" ++ np.1 ++ "' srcipmask='" ++ np.2 ++ "' "
          else
            let nm := nu.get_net_and_mask cidr
            "<" ++ rule.protocol
              ++ " srcipaddr='" ++ nm.1 ++ "' srcipmask='" ++ nm.2 ++ "' "
        let ports :=
          if rule.protocol == "tcp" || rule.protocol == "udp" then
            "dstportstart='" ++ toString rule.from_port
              ++ "' dstportend='" ++ toString rule.to_port ++ "' "
          else if rule.protocol == "icmp" then
            nw_icmp_type_part rule.from_port ++ nw_icmp_code_part rule.to_port
          else ""
        head ++ ports ++ "/>\n")
  ++ "</rule>\n"

/-- `security_group_to_nwfilter_xml` (lines 370-406): the filter document
for one security group (the db read is passed as the resolved group). -/
def security_group_to_nwfilter_xml (flags : Flags) (nu : NetUtils)
    (security_group : SecurityGroup) : String :=
  let rule_xml := security_group.rules.foldl
    (fun acc r => acc ++ nw_rule_xml flags nu r) ""
  let xml := "<filter name='nova-secgroup-" ++ toString security_group.id ++ "' "
  if flags.use_ipv6 then xml ++ "chain='root'>" ++ rule_xml ++ "</filter>"
  else xml ++ "chain='ipv4'>" ++ rule_xml ++ "</filter>"

/-- One `_define_filter` call issued by `prepare_instance_filter`, tagged
by its call site: the per-group secgroup filter (line 321 via line 367),
the per-instance secgroup container (line 326), or the per-NIC filter
(lines 334-335). -/
inductive DefineCall where
  | secgroup_filter (security_group_id : Nat) (xml : String)
  | instance_secgroup (filter_name : String) (children : List String)
  | nic_filter (filter_name : String) (children : List String)
deriving DecidableEq

/-- The child filter references of a define call (a secgroup filter holds
rules, not child references). -/
def DefineCall.children : DefineCall → List String
  | .secgroup_filter _ _ => []
  | .instance_secgroup _ cs => cs
  | .nic_filter _ cs => cs

/-- Whether a define call is a per-NIC filter define (lines 334-335). -/
def DefineCall.is_nic : DefineCall → Bool
  | .nic_filter _ _ => true
  | _ => false

/-- `NWFilterFirewall.prepare_instance_filter` (lines 291-335) together
with `_create_network_filters` (lines 337-358), as the ordered list of
`_define_filter` calls it issues. The per-instance secgroup container is
(re)defined inside the per-group loop with the children accumulated so
far; the per-NIC filters always reference it. -/
def NWFilterFirewall.prepare_instance_filter_defines (flags : Flags) (nu : NetUtils)
    (inst : Instance) (network_info : NetworkInfo)
    (security_groups : List SecurityGroup) : List DefineCall :=
  let instance_secgroup_filter_name := "nova-instance-" ++ inst.name ++ "-secgroup"
  let children0 := ["nova-base-ipv4", "nova-base-ipv6", "nova-allow-dhcp-server"]
  let children0 :=
    if flags.use_ipv6 && network_info.any (fun p => p.1.gateway_v6 ≠ "") then
      children0 ++ ["nova-allow-ra-server"]
    else children0
  let folded := security_groups.foldl
    (fun (acc : List DefineCall × List String) g =>
      let children := acc.2 ++ ["nova-secgroup-" ++ toString g.id]
      (acc.1
        ++ [DefineCall.secgroup_filter g.id (security_group_to_nwfilter_xml flags nu g),
            DefineCall.instance_secgroup instance_secgroup_filter_name children],
        children))
    ([], children0)
  let base_filter := if inst.image_ref = flags.vpn_image_id then "nova-vpn" else "nova-base"
  let nic_defines := network_info.map (fun p =>
    let nic_id := p.2.mac.replace ":" ""
    let fname := instance_filter_name inst nic_id
    let children := [base_filter, instance_secgroup_filter_name]
    let children :=
      if flags.allow_project_net_traffic then
        children ++ ["nova-project"] ++ (if flags.use_ipv6 then ["nova-project-v6"] else [])
      else children
    DefineCall.nic_filter fname children)
  folded.1 ++ nic_defines

/-! ## Concrete fixtures (used by witnesses and counterexamples) -/

/-- Flags with IPv6 disabled. -/
def flags0 : Flags :=
  { use_ipv6 := false, allow_project_net_traffic := false, vpn_image_id := "0" }

/-- Flags with IPv6 enabled. -/
def flags1 : Flags :=
  { use_ipv6 := true, allow_project_net_traffic := false, vpn_image_id := "0" }

/-- A sample instance. -/
def inst1 : Instance := { id := 1, name := "instance-1", image_ref := "7" }

/-- A second sample instance. -/
def inst2 : Instance := { id := 2, name := "instance-2", image_ref := "7" }

/-- Network info of `inst1`. -/
def netinfoA : NetworkInfo :=
  [({ gateway := "10.0.0.1", cidr := "10.0.0.0/24", gateway_v6 := "", cidr_v6 := "" },
    { mac := "aa:bb:cc:dd:ee:ff", ips := [⟨"10.0.0.5"⟩], ip6s := [] })]

/-- Network info of `inst2`, different from `netinfoA`. -/
def netinfoB : NetworkInfo :=
  [({ gateway := "10.1.0.1", cidr := "10.1.0.0/24", gateway_v6 := "", cidr_v6 := "" },
    { mac := "aa:bb:cc:dd:ee:00", ips := [⟨"10.1.0.9"⟩], ip6s := [] })]

/-- The network-info read path for the two sample instances. -/
def get_network_info0 : Instance → NetworkInfo :=
  fun i => if i.id = 1 then netinfoA else netinfoB

/-- A driver state tracking no instance. -/
def st_empty : FirewallState := { iptables := empty_manager, instances := [] }

/-- A driver state tracking `inst1`, after construction staged the fallback
chains. -/
def st_tracked : FirewallState :=
  { iptables := IptablesFirewallDriver.init_chains empty_manager,
    instances := [(1, inst1)] }

/-- A filter-graph state holding the per-NIC filter of `inst1`. -/
def nwSt0 : NWFilterState :=
  { filters := [("nova-instance-instance-1-aabbccddeeff",
      "<filter name='nova-instance-instance-1-aabbccddeeff' chain='root'/>")] }

/-- An icmp rule with unspecified type and a concrete code. -/
def icmpRule0 : SecurityGroupRule :=
  { protocol := "icmp", cidr := some "0.0.0.0/0", from_port := -1, to_port := 5 }

/-- A rule with no CIDR. -/
def cidrlessRule0 : SecurityGroupRule :=
  { protocol := "tcp", cidr := none, from_port := 1, to_port := 2 }

/-- A single-port tcp rule. -/
def sshRule0 : SecurityGroupRule :=
  { protocol := "tcp", cidr := some "0.0.0.0/0", from_port := 22, to_port := 22 }

/-! ## Helper lemmas -/

/-- Looking up a key in an association list from which every pair with that
key was removed yields nothing. -/
lemma lookup_filter_self {β : Type} (l : List (Nat × β)) (a : Nat) :
    (l.filter (fun p => p.1 != a)).lookup a = none := by
  induction l with
  | nil => rfl
  | cons p rest ih =>
    rcases p with ⟨k, v⟩
    rw [List.filter_cons]
    by_cases h : k = a
    · simpa [h] using ih
    · have hb : (a == k) = false := beq_eq_false_iff_ne.mpr (Ne.symm h)
      simp only [show ((k, v).1 != a) = true by simpa using h, if_true]
      simpa [List.lookup, hb] using ih

/-- A rule with no CIDR leaves the directive-list pair unchanged. -/
lemma compile_sg_rule_none (nu : NetUtils) (acc : List String × List String)
    (r : SecurityGroupRule) (h : r.cidr = none) : compile_sg_rule nu acc r = acc := by
  simp [compile_sg_rule, h]

/-- Dropping the CIDR-less rules before folding `compile_sg_rule` changes
nothing. -/
lemma foldl_compile_filter (nu : NetUtils) (rules : List SecurityGroupRule)
    (acc : List String × List String) :
    (rules.filter (fun r => r.cidr.isSome)).foldl (compile_sg_rule nu) acc
      = rules.foldl (compile_sg_rule nu) acc := by
  induction rules generalizing acc with
  | nil => rfl
  | cons r rest ih =>
    rw [List.filter_cons]
    cases hc : r.cidr with
    | none =>
      simp only [hc, Option.isSome_none, Bool.false_eq_true, if_false, List.foldl_cons,
        compile_sg_rule_none nu acc r hc]
      exact ih acc
    | some c =>
      simp only [hc, Option.isSome_some, if_true, List.foldl_cons]
      exact ih _

/-- Dropping the CIDR-less rules of every group before the group fold
changes nothing. -/
lemma foldl_groups_filter (nu : NetUtils) (groups : List SecurityGroup)
    (acc : List String × List String) :
    (groups.map (fun g => { g with rules := g.rules.filter (fun r => r.cidr.isSome) })).foldl
        (fun a g => g.rules.foldl (compile_sg_rule nu) a) acc
      = groups.foldl (fun a g => g.rules.foldl (compile_sg_rule nu) a) acc := by
  induction groups generalizing acc with
  | nil => rfl
  | cons g rest ih =>
    simp only [List.map_cons, List.foldl_cons, foldl_compile_filter]
    exact ih _

/-- Every restage event is a remove or an add for some tracked instance. -/
lemma restage_events_shape (tracked : List Nat) :
    ∀ e ∈ restage_events tracked,
      ∃ i, e = RefreshEvent.remove_filters i ∨ e = RefreshEvent.add_filters i := by
  induction tracked with
  | nil => intro e he; simp [restage_events] at he
  | cons t ts ih =>
    intro e he
    simp only [restage_events, List.foldr_cons, List.mem_cons] at he
    rcases he with rfl | rfl | he
    · exact ⟨t, Or.inl rfl⟩
    · exact ⟨t, Or.inr rfl⟩
    · exact ih e he

/-- The commit event is never part of the restage body. -/
lemma apply_not_mem_restage (tracked : List Nat) :
    RefreshEvent.apply ∉ restage_events tracked := by
  intro h
  rcases restage_events_shape tracked _ h with ⟨i, hi | hi⟩ <;> simp at hi

/-! ## Claims -/

/-- C1: for every instance configuration and every set of attached security
groups (including zero rules and zero groups) both compiled directive lists
returned by `instance_rules` end with the jump to the shared fallback chain
as their last element, and the `sg-fallback` chain staged at construction
holds exactly the single DROP rule in both the v4 and the v6 table. -/
theorem instance_rules_fallback_last_and_drop_only :
    (∀ (flags : Flags) (nu : NetUtils) (ni : NetworkInfo) (groups : List SecurityGroup),
      (instance_rules flags nu ni groups).1.getLast? = some "-j $sg-fallback"
      ∧ (instance_rules flags nu ni groups).2.getLast? = some "-j $sg-fallback")
    ∧ (IptablesFirewallDriver.init_chains empty_manager).ipv4_filter.chains = ["sg-fallback"]
    ∧ (IptablesFirewallDriver.init_chains empty_manager).ipv4_filter.rules
        = [("sg-fallback", "-j DROP")]
    ∧ (IptablesFirewallDriver.init_chains empty_manager).ipv6_filter.chains = ["sg-fallback"]
    ∧ (IptablesFirewallDriver.init_chains empty_manager).ipv6_filter.rules
        = [("sg-fallback", "-j DROP")] := by
  refine ⟨fun flags nu ni groups => ⟨?_, ?_⟩, rfl, rfl, rfl, rfl⟩ <;>
    simp [instance_rules, List.getLast?_concat]

/-- C2 (code bug): `do_refresh_security_group_rules` keeps a single local
`network_info` variable across the loop over tracked instances, so when the
call carries no explicit network info the first instance's info is fetched
once and then reused for every later instance: here `inst2`'s chain is
rebuilt from `inst1`'s network info even though its own read path returns
different info. -/
theorem do_refresh_reuses_first_network_info :
    do_refresh_pairs get_network_info0 [inst1, inst2] none
      = [(inst1, netinfoA), (inst2, netinfoA)]
    ∧ get_network_info0 inst2 = netinfoB
    ∧ netinfoA ≠ netinfoB :=
  ⟨rfl, rfl, by decide⟩

/-- C3 (counterexample): in the trace of `refresh_security_group_rules` the
commit (`iptables.apply`) does not stand before the lock release, so the
named lock does not cover the full recompute-and-restage-and-commit
sequence as claimed. -/
theorem refresh_commit_outside_lock_cx :
    commit_within_lock (refresh_security_group_rules_trace [7]) = false
    ∧ refresh_security_group_rules_trace [7]
      = [RefreshEvent.lock_acquire, RefreshEvent.remove_filters 7,
          RefreshEvent.add_filters 7, RefreshEvent.lock_release, RefreshEvent.apply] := by
  exact ⟨by decide, by decide⟩

/-- C3 (amended): the named lock covers exactly the recompute-and-restage
sequence — the trace opens with the lock acquire, every event of the body
is a remove or add for a tracked instance, the lock release follows the
body, and the single commit is issued last, after the lock is released. -/
theorem refresh_lock_scope (tracked : List Nat) :
    (refresh_security_group_rules_trace tracked).head? = some RefreshEvent.lock_acquire
    ∧ (refresh_security_group_rules_trace tracked).getLast? = some RefreshEvent.apply
    ∧ (refresh_security_group_rules_trace tracked).dropLast.getLast?
        = some RefreshEvent.lock_release
    ∧ (∀ e ∈ restage_events tracked,
        ∃ i, e = RefreshEvent.remove_filters i ∨ e = RefreshEvent.add_filters i)
    ∧ (refresh_security_group_rules_trace tracked).count RefreshEvent.apply = 1 := by
  refine ⟨?_, ?_, ?_, restage_events_shape tracked, ?_⟩
  · simp [refresh_security_group_rules_trace]
  · exact List.getLast?_concat _
  · rw [refresh_security_group_rules_trace, List.dropLast_concat]
    exact List.getLast?_concat _
  · rw [refresh_security_group_rules_trace]
    rw [List.count_append, List.count_append]
    rw [List.count_cons]
    rw [List.count_eq_zero.mpr (apply_not_mem_restage tracked)]
    decide

set_option maxRecDepth 8192 in
/-- C4 (counterexample): for an icmp rule with type `-1` and code `5`, the
nwfilter document carries a code qualifier with no type qualifier, while
the iptables directive for the same rule carries neither — the claimed
"code only together with a type, same rules in both backends" fails. -/
theorem icmp_code_without_type_cx :
    security_group_to_nwfilter_xml flags0 sampleNetutils { id := 3, rules := [icmpRule0] }
      = "<filter name='nova-secgroup-3' chain='ipv4'>"
        ++ "<rule action='accept' direction='in' priority='300'>"
        ++ "<icmp srcipaddr='0.0.0.0' srcipmask='0.0.0.0' code='5' />\n</rule>\n</filter>"
    ∧ sg_rule_args sampleNetutils icmpRule0 "0.0.0.0/0"
      = ["-p", "icmp", "-s", "0.0.0.0/0", "-j ACCEPT"]
    ∧ nw_icmp_type_part icmpRule0.from_port = ""
    ∧ nw_icmp_code_part icmpRule0.to_port = "code='5' " := by
  refine ⟨by decide, by decide, by decide, by decide⟩

/-- C4 (amended): in the iptables backend an icmp type argument of `-1`
suppresses the whole type/code argument (a code is emitted only inside a
type argument), while in the nwfilter backend the type and code fragments
are emitted independently (type iff the type is not `-1`, code iff the
code is not `-1`), so a code qualifier can appear without a type there. -/
theorem icmp_encoding_per_backend (t c : Int) (nu : NetUtils)
    (rule : SecurityGroupRule) (cidr : String)
    (hp : rule.protocol = "icmp") (ht : rule.from_port = -1) :
    (t = -1 → iptables_icmp_type_arg t c = none)
    ∧ (t ≠ -1 → iptables_icmp_type_arg t c
        = some (toString t ++ (if c = -1 then "" else "/" ++ toString c)))
    ∧ (t = -1 → nw_icmp_type_part t = "")
    ∧ (t ≠ -1 → nw_icmp_type_part t = "type='" ++ toString t ++ "' ")
    ∧ (c = -1 → nw_icmp_code_part c = "")
    ∧ (c ≠ -1 → nw_icmp_code_part c = "code='" ++ toString c ++ "' ")
    ∧ sg_rule_args nu rule cidr
      = ["-p", if nu.get_ip_version cidr == 6 then "icmpv6" else "icmp", "-s", cidr,
          "-j ACCEPT"] := by
  refine ⟨fun h => by simp [iptables_icmp_type_arg, h],
    fun h => by simp [iptables_icmp_type_arg, h],
    fun h => by simp [nw_icmp_type_part, h],
    fun h => by simp [nw_icmp_type_part, h],
    fun h => by simp [nw_icmp_code_part, h],
    fun h => by simp [nw_icmp_code_part, h], ?_⟩
  simp [sg_rule_args, hp, ht, iptables_icmp_type_arg]

/-- C4 (witness): the amended theorem evaluated at type `-1`, code `5`. -/
theorem icmp_encoding_per_backend_witness :
    iptables_icmp_type_arg (-1) 5 = none ∧ nw_icmp_code_part 5 = "code='5' " := by
  have h := icmp_encoding_per_backend (-1) 5 sampleNetutils icmpRule0 "0.0.0.0/0" rfl rfl
  exact ⟨h.1 rfl, h.2.2.2.2.2.1 (by decide)⟩

set_option maxRecDepth 8192 in
/-- C5 (counterexample): a security group holding one CIDR-less rule does
not produce the same filter document as the group with no rules — the
CIDR-less rule still contributes an (unconditional) rule element, so it is
not a total no-op in the filter-graph backend. -/
theorem cidrless_rule_xml_cx :
    security_group_to_nwfilter_xml flags0 sampleNetutils { id := 9, rules := [cidrlessRule0] }
      = "<filter name='nova-secgroup-9' chain='ipv4'>"
        ++ "<rule action='accept' direction='in' priority='300'></rule>\n</filter>"
    ∧ security_group_to_nwfilter_xml flags0 sampleNetutils { id := 9, rules := [] }
      = "<filter name='nova-secgroup-9' chain='ipv4'></filter>"
    ∧ security_group_to_nwfilter_xml flags0 sampleNetutils { id := 9, rules := [cidrlessRule0] }
      ≠ security_group_to_nwfilter_xml flags0 sampleNetutils { id := 9, rules := [] } := by
  refine ⟨by decide, by decide, by decide⟩

/-- C5 (amended): in the chain-tree backend a CIDR-less rule contributes no
directive (removing all CIDR-less rules leaves `instance_rules` unchanged),
while in the filter-graph backend it still contributes an empty
accept/in/priority-300 rule element with no match qualifier. -/
theorem cidrless_rule_effects :
    (∀ (flags : Flags) (nu : NetUtils) (ni : NetworkInfo) (groups : List SecurityGroup),
      instance_rules flags nu ni
        (groups.map (fun g => { g with rules := g.rules.filter (fun r => r.cidr.isSome) }))
        = instance_rules flags nu ni groups)
    ∧ (∀ (flags : Flags) (nu : NetUtils) (r : SecurityGroupRule), r.cidr = none →
      nw_rule_xml flags nu r
        = "<rule action='accept' direction='in' priority='300'></rule>\n") := by
  constructor
  · intro flags nu ni groups
    simp only [instance_rules]
    rw [foldl_groups_filter]
  · intro flags nu r h
    simp [nw_rule_xml, h]

/-- C5 (witness): the amended theorem evaluated at a concrete CIDR-less
rule. -/
theorem cidrless_rule_effects_witness :
    nw_rule_xml flags0 sampleNetutils cidrlessRule0
      = "<rule action='accept' direction='in' priority='300'></rule>\n" :=
  cidrless_rule_effects.2 flags0 sampleNetutils cidrlessRule0 rfl

/-- C6: a tcp/udp rule with a CIDR compiles to a single-port `--dport`
match when `from_port = to_port` and to a multiport `--dports from:to`
match otherwise, in both cases with the CIDR as the source match, and the
directive lands between the fixed v4 prefix and the fallback jump in
`instance_rules`. -/
theorem tcp_udp_port_encoding (nu : NetUtils) (rule : SecurityGroupRule) (cidr : String)
    (hp : rule.protocol = "tcp" ∨ rule.protocol = "udp") :
    (rule.from_port = rule.to_port →
      sg_rule_args nu rule cidr
        = ["-p", rule.protocol, "-s", cidr, "--dport", toString rule.from_port, "-j ACCEPT"])
    ∧ (rule.from_port ≠ rule.to_port →
      sg_rule_args nu rule cidr
        = ["-p", rule.protocol, "-s", cidr, "-m", "multiport", "--dports",
            toString rule.from_port ++ ":" ++ toString rule.to_port, "-j ACCEPT"])
    ∧ (∀ (flags : Flags) (ni : NetworkInfo) (gid : Nat),
        rule.cidr = some cidr → nu.get_ip_version cidr = 4 →
        (instance_rules flags nu ni [{ id := gid, rules := [rule] }]).1
          = base_prefix_v4 flags ni
            ++ [String.intercalate " " (sg_rule_args nu rule cidr)]
            ++ ["-j $sg-fallback"]) := by
  refine ⟨?_, ?_, ?_⟩
  · intro h
    rcases hp with hp | hp <;> simp [sg_rule_args, hp, h]
  · intro h
    rcases hp with hp | hp <;> simp [sg_rule_args, hp, h]
  · intro flags ni gid hc hv
    simp [instance_rules, compile_sg_rule, hc, hv, List.append_assoc]

/-- C6 (witness): the theorem evaluated at a tcp rule with
`from_port = to_port = 22` and CIDR `0.0.0.0/0`. -/
theorem tcp_udp_port_encoding_witness :
    sg_rule_args sampleNetutils sshRule0 "0.0.0.0/0"
      = ["-p", "tcp", "-s", "0.0.0.0/0", "--dport", "22", "-j ACCEPT"] := by
  have h := (tcp_udp_port_encoding sampleNetutils sshRule0 "0.0.0.0/0" (Or.inl rfl)).1 rfl
  exact h.trans (by decide)

/-- C7: `unfilter_instance` on an instance that is not tracked returns the
state unchanged (no chain removal, no commit) and only logs; and after any
`unfilter_instance` call the instance is untracked, so an immediately
repeated call is exactly that logged no-op. -/
theorem unfilter_untracked_noop :
    (∀ (flags : Flags) (st : FirewallState) (inst : Instance),
      st.instances.lookup inst.id = none →
      IptablesFirewallDriver.unfilter_instance flags st inst = (st, true))
    ∧ (∀ (flags : Flags) (st : FirewallState) (inst : Instance),
      (IptablesFirewallDriver.unfilter_instance flags st inst).1.instances.lookup inst.id
        = none) := by
  constructor
  · intro flags st inst h
    simp [IptablesFirewallDriver.unfilter_instance, h]
  · intro flags st inst
    cases h : st.instances.lookup inst.id with
    | none => simp [IptablesFirewallDriver.unfilter_instance, h]
    | some v =>
      simp only [IptablesFirewallDriver.unfilter_instance, h,
        IptablesFirewallDriver.remove_filters_for_instance]
      cases hv : flags.use_ipv6 <;> simp [lookup_filter_self]

/-- C7 (witness): unfiltering the untracked `inst1` in the empty state. -/
theorem unfilter_untracked_noop_witness :
    IptablesFirewallDriver.unfilter_instance flags0 st_empty inst1 = (st_empty, true) :=
  unfilter_untracked_noop.1 flags0 st_empty inst1 rfl

/-- C8 (counterexample): `NWFilterFirewall.unfilter_instance` is a no-op —
on a state holding the per-NIC filter of `inst1` it removes nothing, so
the filter-graph backend does not tear down the per-instance/per-NIC
filter objects on unfilter as claimed. -/
theorem nwfilter_unfilter_noop_cx :
    NWFilterFirewall.unfilter_instance nwSt0 inst1 = nwSt0
    ∧ ("nova-instance-instance-1-aabbccddeeff",
        "<filter name='nova-instance-instance-1-aabbccddeeff' chain='root'/>")
      ∈ (NWFilterFirewall.unfilter_instance nwSt0 inst1).filters :=
  ⟨rfl, List.mem_singleton.mpr rfl⟩

/-- C8 (amended): unfiltering a tracked instance removes its v4 chain (and,
when IPv6 is enabled, its v6 chain) from the chain-tree backend and issues
one commit, while the filter-graph backend's `unfilter_instance` is a
documented no-op that removes nothing. -/
theorem unfilter_teardown_per_backend (flags : Flags) (st : FirewallState)
    (inst tracked_inst : Instance)
    (h : st.instances.lookup inst.id = some tracked_inst) :
    instance_chain_name inst ∉
      (IptablesFirewallDriver.unfilter_instance flags st inst).1.iptables.ipv4_filter.chains
    ∧ (flags.use_ipv6 = true →
        instance_chain_name inst ∉
          (IptablesFirewallDriver.unfilter_instance flags st inst).1.iptables.ipv6_filter.chains)
    ∧ (IptablesFirewallDriver.unfilter_instance flags st inst).1.iptables.commits
        = st.iptables.commits + 1
    ∧ (IptablesFirewallDriver.unfilter_instance flags st inst).2 = false
    ∧ (∀ (nwst : NWFilterState) (other : Instance),
        NWFilterFirewall.unfilter_instance nwst other = nwst) := by
  refine ⟨?_, ?_, ?_, ?_, fun _ _ => rfl⟩ <;>
    cases hv : flags.use_ipv6 <;>
      simp [IptablesFirewallDriver.unfilter_instance, h,
        IptablesFirewallDriver.remove_filters_for_instance, IptablesManager.apply,
        IptablesTable.remove_chain, List.mem_filter, hv]

/-- C8 (witness): the amended theorem evaluated on the state tracking
`inst1` with IPv6 enabled. -/
theorem unfilter_teardown_per_backend_witness :
    instance_chain_name inst1 ∉
      (IptablesFirewallDriver.unfilter_instance
        flags1 st_tracked inst1).1.iptables.ipv4_filter.chains :=
  (unfilter_teardown_per_backend flags1 st_tracked inst1 inst1 rfl).1

/-- C9: `instance_filter_exists` returns true exactly when the per-NIC
lookup succeeds for every NIC, and on failure it returns false as soon as
a lookup fails, logging the derived filter name of the first failing NIC
(the caught lookup error is reported as a false result, never
propagated). -/
theorem instance_filter_exists_characterization (lookup : String → Bool)
    (inst : Instance) (ni : NetworkInfo) :
    (NWFilterFirewall.instance_filter_exists lookup inst ni).1
      = ni.all (fun p => lookup (instance_filter_name inst (p.2.mac.replace ":" "")))
    ∧ (NWFilterFirewall.instance_filter_exists lookup inst ni).2
      = (ni.find? (fun p =>
          ! lookup (instance_filter_name inst (p.2.mac.replace ":" "")))).map
          (fun p => instance_filter_name inst (p.2.mac.replace ":" "")) := by
  induction ni with
  | nil => exact ⟨rfl, rfl⟩
  | cons p rest ih =>
    by_cases hl : lookup (instance_filter_name inst (p.2.mac.replace ":" ""))
    · simp [NWFilterFirewall.instance_filter_exists, hl, List.find?_cons, ih]
    · simp [NWFilterFirewall.instance_filter_exists, hl, List.find?_cons]

/-- C10: preparing an instance with zero attached security groups issues
only per-NIC filter defines — the per-instance secgroup container is never
defined (its define sits inside the per-group loop) — yet every per-NIC
define references that undefined secgroup filter by name among its
children. -/
theorem prepare_zero_groups_dangling_reference (flags : Flags) (nu : NetUtils)
    (inst : Instance) (ni : NetworkInfo) :
    (∀ d ∈ NWFilterFirewall.prepare_instance_filter_defines flags nu inst ni [],
      d.is_nic = true ∧ ("nova-instance-" ++ inst.name ++ "-secgroup") ∈ d.children)
    ∧ (NWFilterFirewall.prepare_instance_filter_defines flags nu inst ni []).length
        = ni.length := by
  constructor
  · intro d hd
    simp only [NWFilterFirewall.prepare_instance_filter_defines, List.foldl_nil,
      List.nil_append, List.mem_map] at hd
    obtain ⟨p, hp, rfl⟩ := hd
    refine ⟨rfl, ?_⟩
    cases hproj : flags.allow_project_net_traffic <;>
      cases h6 : flags.use_ipv6 <;> simp [DefineCall.children, hproj, h6]
  · simp [NWFilterFirewall.prepare_instance_filter_defines]

end NovaFirewall
